import Mathlib

/-!
Verification of the ytt YouTube-transcript analysis pipeline.

Shallow embedding of the core backend functions:
  * `backend/utils/helpers.py`   : `process_single_chunk`, `process_single_segment`
  * `backend/tools/video_tools.py`   : `make_segments`
  * `backend/tools/analysis_tools.py` : `text_splitter`, `process_chunks_parallel`
  * `backend/agents/insight_extractor.py` : `process_segment_with_structured_output`
  * `backend/pipeline/orchestrator.py` : `run_structured_insight_extraction_pipeline`

Python floats are modelled as exact rationals (ℚ); Python `len` on a string is
`String.length` (both count code points).  LLM calls are oracles
(`String → Except String _`): `Except.error` models a raised exception, caught
by the surrounding `try/except`.  Thread pools deliver results in an arbitrary
completion order, modelled as an explicit order list quantified over
permutations where the claim involves it.
-/

/-- A transcript snippet dict as produced by `get_video_transcript`:
`{"text": ..., "start": ..., "duration": ..., "end": start + duration}`.
Only the fields read by the segmenter are carried. -/
structure PySnippet where
  text : String
  start : ℚ
  end_ : ℚ
deriving Repr, DecidableEq

/-- A segment dict as returned by `process_single_segment` in
`backend/utils/helpers.py`. -/
structure PySegment where
  id : ℤ
  name : String
  start_time : ℚ
  end_time : ℚ
  duration : ℚ
  content : String
  snippet_count : ℕ
  character_count : ℕ
  estimated_tokens : ℕ
deriving Repr, DecidableEq

/-- The snippet-selection loop of `process_single_segment`
(`helpers.py` lines 95-102): a snippet is kept iff
`snippet_start < end_time and snippet_end > start_time`, original order
preserved. -/
def segment_snippets (transcript_snippets : List PySnippet)
    (start_time end_time : ℚ) : List PySnippet :=
  transcript_snippets.filter
    (fun s => decide (s.start < end_time ∧ s.end_ > start_time))

/-- `process_single_segment(transcript_snippets, segment_range)` from
`backend/utils/helpers.py` lines 81-117.  `segment_range` is the tuple
`(id, start_time, end_time, duration)` built by `make_segments`. -/
def process_single_segment (transcript_snippets : List PySnippet)
    (segment_range : ℤ × ℚ × ℚ × ℚ) : PySegment :=
  let segment_id := segment_range.1
  let start_time := segment_range.2.1
  let end_time := segment_range.2.2.1
  let duration := segment_range.2.2.2
  let snips := segment_snippets transcript_snippets start_time end_time
  let segment_content := String.intercalate " " (snips.map (·.text))
  { id := segment_id
    name := "Segment " ++ toString segment_id
    start_time := start_time
    end_time := end_time
    duration := duration
    content := segment_content
    snippet_count := snips.length
    character_count := segment_content.length
    estimated_tokens := segment_content.length / 4 }

/-- Stable-enough insertion used to model Python's ascending
`segments.sort(key=lambda x: x['id'])` (`video_tools.py` line 151); the ids
produced by `make_segments` are pairwise distinct, so any ascending sort
agrees with Python's stable sort there. -/
def insert_by_id (x : PySegment) : List PySegment → List PySegment
  | [] => [x]
  | y :: ys => if y.id ≤ x.id then y :: insert_by_id x ys else x :: y :: ys

/-- Ascending sort by the `id` key, modelling `list.sort(key=...)`. -/
def sort_by_id : List PySegment → List PySegment
  | [] => []
  | x :: xs => insert_by_id x (sort_by_id xs)

/-- The result dict of `make_segments` (`video_tools.py`).  Failure branches
return `success=False` with an `error` string, an empty `segments` list and
`total_segments=0`. -/
structure SegmentsResult where
  success : Bool
  error : Option String
  segments : List PySegment
  total_segments : ℤ
deriving Repr, DecidableEq

/-- `make_segments(transcript_snippets, total_duration, num_segments)` from
`backend/tools/video_tools.py` lines 84-167.

Faithfulness notes:
  * the `isinstance` checks can never fire in the typed embedding;
  * `num_segments = 0` makes Python raise `ZeroDivisionError` with message
    `float division by zero` at `total_duration / num_segments`
    (`total_duration` is a float), caught by the outer `except` which
    returns the generic failure dict — modelled by the explicit zero test;
  * a negative `num_segments` passes the division and gives an empty
    `range`, but then `ThreadPoolExecutor(max_workers=num_segments)` raises
    `ValueError` with message `max_workers must be greater than 0` at
    construction, again caught by the outer `except` into the generic
    failure dict — modelled by the explicit negativity test, placed after
    the zero test because the division runs first;
  * for `num_segments ≥ 1` the executor maps `process_single_segment` over
    the ranges and the results are collected in completion order, then
    sorted by id. -/
def make_segments (transcript_snippets : List PySnippet)
    (total_duration : ℚ) (num_segments : ℤ) : SegmentsResult :=
  if transcript_snippets.isEmpty then
    { success := false
      error := some "No transcript snippets provided"
      segments := []
      total_segments := 0 }
  else if total_duration ≤ 0 then
    { success := false
      error := some "total_duration must be a positive number"
      segments := []
      total_segments := 0 }
  else if num_segments = 0 then
    { success := false
      error := some "Failed to create segments: float division by zero"
      segments := []
      total_segments := 0 }
  else if num_segments < 0 then
    { success := false
      error := some "Failed to create segments: max_workers must be greater than 0"
      segments := []
      total_segments := 0 }
  else
    let segment_duration := total_duration / (num_segments : ℚ)
    let segment_ranges := (List.range num_segments.toNat).map
      (fun (i : ℕ) => ((i : ℤ) + 1, (i : ℚ) * segment_duration,
                 ((i : ℚ) + 1) * segment_duration, segment_duration))
    let segments := segment_ranges.map (process_single_segment transcript_snippets)
    { success := true
      error := none
      segments := sort_by_id segments
      total_segments := num_segments }

/-- The pydantic `ChunkAnalysis` model from `backend/utils/helpers.py`
lines 5-10: the structured output of one chunk-level LLM call. -/
structure ChunkAnalysis where
  insights : List String
  summary : String
  quotes : List String
  takeaways : List String
  themes : List String
deriving Repr, DecidableEq

/-- The result dict of `process_single_chunk`.  The failure dict
(`helpers.py` lines 74-79) carries only `insights=[]` and `summary=""`;
the merge loop then reads `quotes`/`takeaways` through `.get(key, [])`,
so those fields are `[]` on failure. -/
structure ChunkResult where
  success : Bool
  error : Option String
  chunk_number : ℕ
  insights : List String
  summary : String
  quotes : List String
  takeaways : List String
  themes : List String
deriving Repr, DecidableEq

/-- The prompt f-string of `process_single_chunk` (`helpers.py` lines 41-56),
with the interpolated values in the positions of the placeholders. -/
def chunk_analysis_prompt (chunk_text : String) (chunk_num total_chunks : ℕ)
    (segment_info : String) : String :=
  "Analyze this video transcript chunk and extract insights:\n\nCONTEXT: This is chunk "
    ++ toString chunk_num ++ " of " ++ toString total_chunks ++ " from "
    ++ segment_info ++ "\n\nTRANSCRIPT CHUNK:\n" ++ chunk_text
    ++ "\n\nPlease provide:\n1. 3-5 key insights from this content\n2. A concise summary (2-3 sentences)\n3. 1-2 notable quotes if any stand out (empty list if none)\n4. 2-3 actionable takeaways\n5. Main themes/topics covered\n\nExtract meaningful, specific insights rather than generic statements."

/-- `process_single_chunk(chunk_text, chunk_num, total_chunks, segment_info)`
from `backend/utils/helpers.py` lines 22-79.  The LLM call
`llm.invoke(prompt)` is an oracle; `Except.error e` models the call raising
with message `e`, landing in the `except` branch. -/
def process_single_chunk (llm : String → Except String ChunkAnalysis)
    (chunk_text : String) (chunk_num total_chunks : ℕ)
    (segment_info : String) : ChunkResult :=
  match llm (chunk_analysis_prompt chunk_text chunk_num total_chunks segment_info) with
  | Except.ok analysis =>
    { success := true
      error := none
      chunk_number := chunk_num
      insights := analysis.insights
      summary := analysis.summary
      quotes := analysis.quotes
      takeaways := analysis.takeaways
      themes := analysis.themes }
  | Except.error e =>
    { success := false
      error := some ("Failed to process chunk " ++ toString chunk_num ++ ": " ++ e)
      chunk_number := chunk_num
      insights := []
      summary := ""
      quotes := []
      takeaways := []
      themes := [] }

/-- Python's `str.strip()` whitespace set: the codepoints `c` with
`chr(c).strip() == ""` (CPython): HT LF VT FF CR (9-13), FS GS RS US
(28-31), space (32), NEL (133), NBSP (160), Ogham space mark (5760), the
en-quad..hair-space block (8192-8202), line/paragraph separator
(8232, 8233), narrow NBSP (8239), medium mathematical space (8287) and
ideographic space (12288).  Wider than Lean's `Char.isWhitespace`. -/
def py_isspace (c : Char) : Bool :=
  let n := c.toNat
  decide ((9 ≤ n ∧ n ≤ 13) ∨ (28 ≤ n ∧ n ≤ 31) ∨ n = 32 ∨ n = 133 ∨ n = 160
    ∨ n = 5760 ∨ (8192 ≤ n ∧ n ≤ 8202) ∨ n = 8232 ∨ n = 8233 ∨ n = 8239
    ∨ n = 8287 ∨ n = 12288)

/-- The result dict of `text_splitter` (`analysis_tools.py`).  The failure
dict has no `needs_splitting` key; the field is `false` there. -/
structure SplitResult where
  success : Bool
  error : Option String
  needs_splitting : Bool
  chunks : List String
  total_chunks : ℕ
  original_length : ℕ
  estimated_tokens : ℕ
deriving Repr, DecidableEq

/-- `text_splitter(content, max_tokens)` from
`backend/tools/analysis_tools.py` lines 14-75.

The guard `not content or not content.strip()` holds exactly when every
character of `content` is Python whitespace (vacuously for the empty
string), modelled as `content.data.all py_isspace`.

The oversized path constructs LangChain's
`RecursiveCharacterTextSplitter(chunk_size=max_chars, chunk_overlap=1000, ...)`
inside the `try`: its `TextSplitter.__init__` raises `ValueError` with
message `Got a larger chunk overlap (1000) than chunk size (N), should be
smaller.` whenever `chunk_overlap > chunk_size`, caught by the `except`
into the generic failure dict — modelled by the explicit `max_chars < 1000`
test.  The subsequent `split_text` call is an external library function
modelled as the total oracle `splitText` (chunk size `max_chars` and the
fixed separator/overlap configuration are baked into the call). -/
def text_splitter (splitText : ℕ → String → List String)
    (content : String) (max_tokens : ℕ) : SplitResult :=
  if content.data.all py_isspace then
    { success := false
      error := some "No content provided to split"
      needs_splitting := false
      chunks := []
      total_chunks := 0
      original_length := 0
      estimated_tokens := 0 }
  else
    let max_chars := max_tokens * 4
    if content.length ≤ max_chars then
      { success := true
        error := none
        needs_splitting := false
        chunks := [content]
        total_chunks := 1
        original_length := content.length
        estimated_tokens := content.length / 4 }
    else if max_chars < 1000 then
      { success := false
        error := some ("Failed to split content: Got a larger chunk overlap (1000) than chunk size ("
          ++ toString max_chars ++ "), should be smaller.")
        needs_splitting := false
        chunks := []
        total_chunks := 0
        original_length := 0
        estimated_tokens := 0 }
    else
      let chunks := splitText max_chars content
      { success := true
        error := none
        needs_splitting := true
        chunks := chunks
        total_chunks := chunks.length
        original_length := content.length
        estimated_tokens := content.length / 4 }

/-- The result dict of `process_chunks_parallel`.  Failure branches use the
keys `insights`/`combined_summary`; the combined fields are empty there. -/
structure ChunksParallelResult where
  success : Bool
  error : Option String
  chunk_results : List ChunkResult
  combined_insights : List String
  combined_summary : String
  notable_quotes : List String
  actionable_takeaways : List String
  processing_method : String
  total_chunks_processed : ℕ
deriving Repr, DecidableEq

/-- The ordered per-chunk result list of `process_chunks_parallel`
(`analysis_tools.py` lines 115-126): one `process_single_chunk` call per
chunk, with `chunk_num = i+1`; the thread pool writes each result into the
pre-sized slot `chunk_results[chunk_index]`, so the list is in chunk order
regardless of completion order. -/
def chunk_results_of (llm : String → Except String ChunkAnalysis)
    (chunks : List String) (segment_info : String) : List ChunkResult :=
  chunks.enum.map
    (fun ic => process_single_chunk llm ic.2 (ic.1 + 1) chunks.length segment_info)

/-- `process_chunks_parallel(chunks, segment_info)` from
`backend/tools/analysis_tools.py` lines 77-161.  The merge loop
(lines 134-139) extends the combined lists only from results with
`success` truthy, in chunk order, then caps them with slices. -/
def process_chunks_parallel (llm : String → Except String ChunkAnalysis)
    (chunks : List String) (segment_info : String) : ChunksParallelResult :=
  if chunks.isEmpty then
    { success := false
      error := some "No chunks provided to process"
      chunk_results := []
      combined_insights := []
      combined_summary := ""
      notable_quotes := []
      actionable_takeaways := []
      processing_method := ""
      total_chunks_processed := 0 }
  else if chunks.length = 1 then
    let chunk_result := process_single_chunk llm (chunks.headD "") 1 chunks.length segment_info
    { success := true
      error := none
      chunk_results := [chunk_result]
      combined_insights := chunk_result.insights
      combined_summary := chunk_result.summary
      notable_quotes := chunk_result.quotes
      actionable_takeaways := chunk_result.takeaways
      processing_method := "single_chunk"
      total_chunks_processed := 1 }
  else
    let chunk_results := chunk_results_of llm chunks segment_info
    let successes := chunk_results.filter (·.success)
    { success := true
      error := none
      chunk_results := chunk_results
      combined_insights := ((successes.map (·.insights)).flatten).take 10
      combined_summary := String.intercalate " " (successes.map (·.summary))
      notable_quotes := ((successes.map (·.quotes)).flatten).take 5
      actionable_takeaways := ((successes.map (·.takeaways)).flatten).take 7
      processing_method := "parallel_processing_" ++ toString chunks.length ++ "_chunks"
      total_chunks_processed := chunks.length }

/-- The pydantic `SegmentAnalysis` model from
`backend/agents/insight_extractor.py` lines 20-26. -/
structure SegmentAnalysis where
  segment_number : ℤ
  segment_name : String
  summary : String
  key_insights : List String
  actionable_takeaways : List String
deriving Repr, DecidableEq

/-- The pydantic `MultiSegmentAnalysis` container
(`insight_extractor.py` lines 28-31). -/
structure MultiSegmentAnalysis where
  segments : List SegmentAnalysis
  total_segments : ℕ
deriving Repr, DecidableEq

/-- The fields of a segment dict read by
`process_segment_with_structured_output`: `content`, `estimated_tokens`,
`duration`, `character_count` (all via `.get`). -/
structure SegmentData where
  content : String
  estimated_tokens : ℕ
  duration : ℚ
  character_count : ℕ
deriving Repr, DecidableEq

/-- Rendering of a segment dict as interpolated into the large-segment
agent prompt (`Segment n: \x7bsegment_data\x7d`); a stand-in for Python's
dict repr, feeding the agent oracle only. -/
def reprSegmentData (d : SegmentData) : String :=
  "content: " ++ d.content ++ ", estimated_tokens: " ++ toString d.estimated_tokens
    ++ ", duration: " ++ toString d.duration
    ++ ", character_count: " ++ toString d.character_count

/-- The agent input f-string of the large-segment path
(`insight_extractor.py` lines 132-140). -/
def large_segment_agent_input (segment_data : SegmentData) (segment_number : ℤ) : String :=
  "Process this large segment using your tools (text_splitter, process_chunks_parallel) if needed:\n\nSegment "
    ++ toString segment_number ++ ": " ++ reprSegmentData segment_data
    ++ "\n\nAfter processing, provide:\n1. A meaningful segment name based on content\n2. An engaging 2-3 sentence summary\n3. 3-5 key insights\n4. 2-3 actionable takeaways"

/-- The forced-structured-output f-string of the large-segment path
(`insight_extractor.py` lines 148-157). -/
def large_segment_structured_prompt (segment_data : SegmentData)
    (segment_number : ℤ) (processed_content : String) : String :=
  "Based on this analysis of Segment " ++ toString segment_number
    ++ ", create structured output:\n\nPROCESSED ANALYSIS:\n" ++ processed_content
    ++ "\n\nORIGINAL SEGMENT DATA:\nDuration: " ++ toString segment_data.duration
    ++ " seconds\nCharacter Count: " ++ toString segment_data.character_count
    ++ "\n\nExtract and structure the analysis into the required format."

/-- The direct structured-analysis f-string of the small-segment path
(`insight_extractor.py` lines 166-179). -/
def small_segment_prompt (segment_data : SegmentData) (segment_number : ℤ) : String :=
  "Analyze this video segment and provide structured insights:\n\nSEGMENT "
    ++ toString segment_number ++ " DATA:\nContent: " ++ segment_data.content
    ++ "\nDuration: " ++ toString segment_data.duration
    ++ " seconds\nCharacter Count: " ++ toString segment_data.character_count
    ++ "\n\nProvide:\n1. A meaningful segment name based on the actual content (not generic \"Segment X\")\n2. An engaging 2-3 sentence summary\n3. 3-5 key insights from the content\n4. 2-3 actionable takeaways for viewers\n\nFocus on extracting valuable, specific insights rather than generic statements."

/-- The fallback `SegmentAnalysis` built in the `except` branch of
`process_segment_with_structured_output` (`insight_extractor.py`
lines 185-193). -/
def fallback_segment_analysis (segment_number : ℤ) (e : String) : SegmentAnalysis :=
  { segment_number := segment_number
    segment_name := "Segment " ++ toString segment_number ++ " (Processing Error)"
    summary := "Error processing segment: " ++ e
    key_insights := ["Processing error occurred"]
    actionable_takeaways := ["Review segment processing"] }

/-- `process_segment_with_structured_output(segment_data, segment_number)`
from `backend/agents/insight_extractor.py` lines 111-193.

`agent` is the tool-using agent of the large path
(`agent.invoke(...)` followed by `agent_result["output"]`); `structured_llm`
is the structured-output LLM of both paths.  `Except.error` models the
underlying call raising; any raise lands in the `except` branch producing
`fallback_segment_analysis`.  On success both paths overwrite
`result.segment_number` with the caller-supplied `segment_number` before
returning. -/
def process_segment_with_structured_output
    (agent : String → Except String String)
    (structured_llm : String → Except String SegmentAnalysis)
    (segment_data : SegmentData) (segment_number : ℤ) : SegmentAnalysis :=
  if segment_data.estimated_tokens > 40000 then
    match agent (large_segment_agent_input segment_data segment_number) with
    | Except.error e => fallback_segment_analysis segment_number e
    | Except.ok processed_content =>
      match structured_llm
          (large_segment_structured_prompt segment_data segment_number processed_content) with
      | Except.error e => fallback_segment_analysis segment_number e
      | Except.ok result => { result with segment_number := segment_number }
  else
    match structured_llm (small_segment_prompt segment_data segment_number) with
    | Except.error e => fallback_segment_analysis segment_number e
    | Except.ok result => { result with segment_number := segment_number }

/-- The slot-filling loop of `run_structured_insight_extraction_pipeline`
(`orchestrator.py` lines 114-122): starting from a pre-sized all-`None`
list, each completed future writes its result into the slot at its original
index (`segment_analyses[segment_index] = result`); a future whose
`result()` raises leaves its slot `None`.  `order` is the completion order
of the futures; `worker i` is `some a` when segment `i`'s future yields `a`
and `none` when it raises. -/
def fillSlots (worker : ℕ → Option SegmentAnalysis) :
    List ℕ → List (Option SegmentAnalysis) → List (Option SegmentAnalysis)
  | [], acc => acc
  | i :: rest, acc => fillSlots worker rest (acc.set i (worker i))

/-- `run_structured_insight_extraction_pipeline(segments_data)` from
`backend/pipeline/orchestrator.py` lines 86-152, restricted to the
assembly of the final `MultiSegmentAnalysis` (lines 106-131): fill the
pre-sized array in completion order, filter out `None` slots, and build
`MultiSegmentAnalysis(segments=valid, total_segments=len(valid))`.
`n` is `len(segments_data)`. -/
def run_structured_insight_extraction_pipeline
    (worker : ℕ → Option SegmentAnalysis) (n : ℕ) (order : List ℕ) :
    MultiSegmentAnalysis :=
  let segment_analyses := fillSlots worker order (List.replicate n none)
  let valid_analyses := segment_analyses.filterMap id
  { segments := valid_analyses
    total_segments := valid_analyses.length }

/-- A concrete two-chunk oracle exercising the merge: raises on chunk 1's
prompt, succeeds on every other prompt. -/
def mixed_chunk_llm : String → Except String ChunkAnalysis :=
  fun p =>
    if p = chunk_analysis_prompt "a" 1 2 "" then Except.error "boom"
    else Except.ok ⟨["i2"], "s2", ["q2"], ["t2"], []⟩

/-! ## Theorems -/

/-- The fallback analysis has the error shape: name ends in
"(Processing Error)", summary carries the error text, fixed insights. -/
theorem fallback_props (n : ℤ) (e : String) :
    (∃ pre, (fallback_segment_analysis n e).segment_name
        = pre ++ "(Processing Error)")
    ∧ (∃ msg, (fallback_segment_analysis n e).summary
        = "Error processing segment: " ++ msg)
    ∧ (fallback_segment_analysis n e).key_insights = ["Processing error occurred"] := by
  refine ⟨⟨("Segment " ++ toString n) ++ " ", ?_⟩, ⟨e, rfl⟩, rfl⟩
  show ("Segment " ++ toString n) ++ " (Processing Error)"
      = (("Segment " ++ toString n) ++ " ") ++ "(Processing Error)"
  have h : " (Processing Error)" = " " ++ "(Processing Error)" := rfl
  rw [h, ← String.append_assoc]

/-- C1: For every segment processed by the insight extractor with
caller-supplied index `n`, the returned `SegmentAnalysis` has
`segment_number = n`, whatever the LLM returned, on the large-segment,
small-segment, and fallback paths alike. -/
theorem extractor_forces_segment_number
    (agent : String → Except String String)
    (structured_llm : String → Except String SegmentAnalysis)
    (segment_data : SegmentData) (n : ℤ) :
    (process_segment_with_structured_output agent structured_llm
        segment_data n).segment_number = n := by
  by_cases hbig : segment_data.estimated_tokens > 40000
  · cases hag : agent (large_segment_agent_input segment_data n) with
    | error e =>
      simp [process_segment_with_structured_output, hbig, hag,
        fallback_segment_analysis]
    | ok processed_content =>
      cases hsl : structured_llm
          (large_segment_structured_prompt segment_data n processed_content) with
      | error e =>
        simp [process_segment_with_structured_output, hbig, hag, hsl,
          fallback_segment_analysis]
      | ok result =>
        simp [process_segment_with_structured_output, hbig, hag, hsl]
  · cases hsl : structured_llm (small_segment_prompt segment_data n) with
    | error e =>
      simp [process_segment_with_structured_output, hbig, hsl,
        fallback_segment_analysis]
    | ok result =>
      simp [process_segment_with_structured_output, hbig, hsl]

/-- C3: If every structured-LLM call raises, the insight extractor (a total
function, so it never raises to its caller) returns a fallback
`SegmentAnalysis` whose name ends in "(Processing Error)", whose summary
carries the error text, and whose `key_insights` are exactly
`["Processing error occurred"]`. -/
theorem extractor_fallback_on_llm_failure
    (agent : String → Except String String)
    (structured_llm : String → Except String SegmentAnalysis)
    (hfail : ∀ p, ∃ e, structured_llm p = Except.error e)
    (segment_data : SegmentData) (n : ℤ) :
    (∃ pre, (process_segment_with_structured_output agent structured_llm
        segment_data n).segment_name = pre ++ "(Processing Error)")
    ∧ (∃ msg, (process_segment_with_structured_output agent structured_llm
        segment_data n).summary = "Error processing segment: " ++ msg)
    ∧ (process_segment_with_structured_output agent structured_llm
        segment_data n).key_insights = ["Processing error occurred"] := by
  have key : ∃ e, process_segment_with_structured_output agent structured_llm
      segment_data n = fallback_segment_analysis n e := by
    by_cases hbig : segment_data.estimated_tokens > 40000
    · cases hag : agent (large_segment_agent_input segment_data n) with
      | error e =>
        exact ⟨e, by simp [process_segment_with_structured_output, hbig, hag]⟩
      | ok processed_content =>
        obtain ⟨e, he⟩ := hfail
          (large_segment_structured_prompt segment_data n processed_content)
        exact ⟨e, by simp [process_segment_with_structured_output, hbig, hag, he]⟩
    · obtain ⟨e, he⟩ := hfail (small_segment_prompt segment_data n)
      exact ⟨e, by simp [process_segment_with_structured_output, hbig, he]⟩
  obtain ⟨e, hk⟩ := key
  rw [hk]
  exact fallback_props n e

/-- Inserting below every element leaves the list prefixed by the element. -/
theorem insert_by_id_eq_cons (x : PySegment) (l : List PySegment)
    (h : ∀ y ∈ l, x.id < y.id) : insert_by_id x l = x :: l := by
  cases l with
  | nil => rfl
  | cons y ys =>
    have hy : ¬ y.id ≤ x.id := not_le.mpr (h y (List.mem_cons_self y ys))
    simp [insert_by_id, hy]

/-- Sorting a list whose ids are already strictly increasing is the
identity. -/
theorem sort_by_id_eq_self (l : List PySegment)
    (h : l.Pairwise (fun a b => a.id < b.id)) : sort_by_id l = l := by
  induction l with
  | nil => rfl
  | cons x xs ih =>
    obtain ⟨hx, hxs⟩ := List.pairwise_cons.mp h
    simp [sort_by_id, ih hxs, insert_by_id_eq_cons x xs hx]

/-- The segments built by `make_segments` from `List.range` have strictly
increasing ids. -/
theorem ranges_pairwise_id (f : ℕ → PySegment)
    (hf : ∀ i j, i < j → (f i).id < (f j).id) (m : ℕ) :
    ((List.range m).map f).Pairwise (fun a b => a.id < b.id) :=
  List.pairwise_map.mpr ((List.pairwise_lt_range m).imp (fun h => hf _ _ h))

/-- Witness for C3 at a concrete always-raising LLM. -/
theorem extractor_fallback_on_llm_failure_witness :
    (∀ p : String, ∃ e, (fun _ : String =>
        (Except.error "boom" : Except String SegmentAnalysis)) p = Except.error e)
    ∧ ((∃ pre, (process_segment_with_structured_output
          (fun _ => Except.ok "agent output")
          (fun _ => Except.error "boom")
          ⟨"some content", 5, 10, 20⟩ 7).segment_name = pre ++ "(Processing Error)")
      ∧ (∃ msg, (process_segment_with_structured_output
          (fun _ => Except.ok "agent output")
          (fun _ => Except.error "boom")
          ⟨"some content", 5, 10, 20⟩ 7).summary = "Error processing segment: " ++ msg)
      ∧ (process_segment_with_structured_output
          (fun _ => Except.ok "agent output")
          (fun _ => Except.error "boom")
          ⟨"some content", 5, 10, 20⟩ 7).key_insights = ["Processing error occurred"]) :=
  ⟨fun _ => ⟨"boom", rfl⟩,
   extractor_fallback_on_llm_failure (fun _ => Except.ok "agent output")
     (fun _ => Except.error "boom") (fun _ => ⟨"boom", rfl⟩)
     ⟨"some content", 5, 10, 20⟩ 7⟩

/-- C2: On valid inputs (non-empty snippets, positive duration,
`num_segments ≥ 1`), `make_segments` succeeds with exactly `num_segments`
segments, whose ids are `1..num_segments` in increasing order, segment `id`
having `start_time = (id-1)*total_duration/num_segments` and
`end_time = id*total_duration/num_segments`. -/
theorem make_segments_valid_shape
    (snips : List PySnippet) (D : ℚ) (n : ℤ)
    (hs : snips ≠ []) (hD : 0 < D) (hn : 1 ≤ n) :
    (make_segments snips D n).success = true
    ∧ (make_segments snips D n).segments.length = n.toNat
    ∧ (make_segments snips D n).segments.map
        (fun g => (g.id, g.start_time, g.end_time))
      = (List.range n.toNat).map
          (fun (i : ℕ) => ((i : ℤ) + 1, (i : ℚ) * D / (n : ℚ),
                     ((i : ℚ) + 1) * D / (n : ℚ))) := by
  have hempty : snips.isEmpty = false := by
    cases snips with
    | nil => exact absurd rfl hs
    | cons a l => rfl
  have hD' : ¬ D ≤ 0 := not_le.mpr hD
  have hn0 : ¬ n = 0 := by omega
  have hneg : ¬ n < 0 := by omega
  have hres : make_segments snips D n =
      { success := true
        error := none
        segments := sort_by_id (((List.range n.toNat).map
          (fun (i : ℕ) => ((i : ℤ) + 1, (i : ℚ) * (D / (n : ℚ)),
                     ((i : ℚ) + 1) * (D / (n : ℚ)), D / (n : ℚ)))).map
          (process_single_segment snips))
        total_segments := n } := by
    unfold make_segments
    rw [hempty]
    simp only [Bool.false_eq_true, if_false, if_neg hD', if_neg hn0, if_neg hneg]
  have hsort : sort_by_id ((List.range n.toNat).map
      (process_single_segment snips ∘
        (fun (i : ℕ) => ((i : ℤ) + 1, (i : ℚ) * (D / (n : ℚ)),
                 ((i : ℚ) + 1) * (D / (n : ℚ)), D / (n : ℚ)))))
    = (List.range n.toNat).map
      (process_single_segment snips ∘
        (fun (i : ℕ) => ((i : ℤ) + 1, (i : ℚ) * (D / (n : ℚ)),
                 ((i : ℚ) + 1) * (D / (n : ℚ)), D / (n : ℚ)))) := by
    apply sort_by_id_eq_self
    apply ranges_pairwise_id
    intro i j hij
    show (i : ℤ) + 1 < (j : ℤ) + 1
    omega
  refine ⟨by rw [hres], ?_, ?_⟩
  · rw [hres]
    dsimp only
    rw [List.map_map, hsort]
    simp
  · rw [hres]
    dsimp only
    rw [List.map_map, hsort, List.map_map]
    apply List.map_congr_left
    intro i _
    show ((i : ℤ) + 1, (i : ℚ) * (D / (n : ℚ)), ((i : ℚ) + 1) * (D / (n : ℚ)))
      = ((i : ℤ) + 1, (i : ℚ) * D / (n : ℚ), ((i : ℚ) + 1) * D / (n : ℚ))
    rw [mul_div_assoc, mul_div_assoc]

/-- Witness for C2: two segments over a 10-second video. -/
theorem make_segments_valid_shape_witness :
    ([⟨"a", 0, 7⟩] : List PySnippet) ≠ [] ∧ (0 : ℚ) < 10 ∧ (1 : ℤ) ≤ 2
    ∧ ((make_segments [⟨"a", 0, 7⟩] 10 2).success = true
      ∧ (make_segments [⟨"a", 0, 7⟩] 10 2).segments.length = (2 : ℤ).toNat
      ∧ (make_segments [⟨"a", 0, 7⟩] 10 2).segments.map
          (fun g => (g.id, g.start_time, g.end_time))
        = (List.range (2 : ℤ).toNat).map
            (fun (i : ℕ) => ((i : ℤ) + 1, (i : ℚ) * 10 / ((2 : ℤ) : ℚ),
                       ((i : ℚ) + 1) * 10 / ((2 : ℤ) : ℚ)))) :=
  ⟨by decide, by norm_num, by decide,
   make_segments_valid_shape [⟨"a", 0, 7⟩] 10 2 (by decide) (by norm_num) (by decide)⟩

/-- C6 counterexample: `num_segments = -1` violates the precondition
`num_segments ≥ 1` and `make_segments` does fail, but with the caught
`ThreadPoolExecutor` message `max_workers must be greater than 0` — not a
validation error describing the `num_segments` field (the two validation
messages the function produces name the snippets and duration inputs);
likewise `num_segments = 0` fails only with the caught `ZeroDivisionError`
message. -/
theorem make_segments_num_segments_error_counterexample :
    (make_segments [⟨"a", 0, 1⟩] 10 (-1)).success = false
    ∧ (make_segments [⟨"a", 0, 1⟩] 10 (-1)).error
      = some "Failed to create segments: max_workers must be greater than 0"
    ∧ (make_segments [⟨"a", 0, 1⟩] 10 (-1)).error
      ≠ some "No transcript snippets provided"
    ∧ (make_segments [⟨"a", 0, 1⟩] 10 (-1)).error
      ≠ some "total_duration must be a positive number"
    ∧ (make_segments [⟨"a", 0, 1⟩] 10 0).error
      = some "Failed to create segments: float division by zero" := by
  decide

/-- C6 amended: every precondition violation yields an explicit failure
result (never success), but only empty snippets and non-positive
`total_duration` get validation messages naming the offending input;
`num_segments ≥ 1` is not explicitly validated — `num_segments = 0` fails
via the caught `ZeroDivisionError` (`float division by zero`) and
`num_segments < 0` via the caught `ThreadPoolExecutor` `ValueError`
(`max_workers must be greater than 0`), generic exception messages that do
not describe the `num_segments` field. -/
theorem make_segments_precondition_failures
    (snips : List PySnippet) (D : ℚ) (n : ℤ) :
    (snips = [] →
      make_segments snips D n
        = { success := false, error := some "No transcript snippets provided",
            segments := [], total_segments := 0 })
    ∧ (snips ≠ [] → D ≤ 0 →
      make_segments snips D n
        = { success := false,
            error := some "total_duration must be a positive number",
            segments := [], total_segments := 0 })
    ∧ (snips ≠ [] → 0 < D → n = 0 →
      make_segments snips D n
        = { success := false,
            error := some "Failed to create segments: float division by zero",
            segments := [], total_segments := 0 })
    ∧ (snips ≠ [] → 0 < D → n < 0 →
      make_segments snips D n
        = { success := false,
            error := some "Failed to create segments: max_workers must be greater than 0",
            segments := [], total_segments := 0 }) := by
  refine ⟨?_, ?_, ?_, ?_⟩
  · intro h
    subst h
    rfl
  · intro hs hD
    have hempty : snips.isEmpty = false := by
      cases snips with
      | nil => exact absurd rfl hs
      | cons a l => rfl
    unfold make_segments
    rw [hempty]
    simp only [Bool.false_eq_true, if_false, if_pos hD]
  · intro hs hD hn
    have hempty : snips.isEmpty = false := by
      cases snips with
      | nil => exact absurd rfl hs
      | cons a l => rfl
    unfold make_segments
    rw [hempty]
    simp only [Bool.false_eq_true, if_false, if_neg (not_le.mpr hD), if_pos hn]
  · intro hs hD hn
    have hempty : snips.isEmpty = false := by
      cases snips with
      | nil => exact absurd rfl hs
      | cons a l => rfl
    have hn0 : ¬ n = 0 := by omega
    unfold make_segments
    rw [hempty]
    simp only [Bool.false_eq_true, if_false, if_neg (not_le.mpr hD), if_neg hn0,
      if_pos hn]

/-- Witness for C6's amended claim: a negative segment count fails with the
caught executor message. -/
theorem make_segments_precondition_failures_witness :
    ([⟨"b", 0, 1⟩] : List PySnippet) ≠ [] ∧ (0 : ℚ) < 4 ∧ (-2 : ℤ) < 0
    ∧ make_segments [⟨"b", 0, 1⟩] 4 (-2)
      = { success := false,
          error := some "Failed to create segments: max_workers must be greater than 0",
          segments := [], total_segments := 0 } :=
  ⟨by decide, by norm_num, by decide,
   (make_segments_precondition_failures [⟨"b", 0, 1⟩] 4 (-2)).2.2.2
     (by decide) (by norm_num) (by decide)⟩

/-- C4: A snippet is included in a window's segment iff
`snippet.start < window.end` and `snippet.end > window.start`; the
segment's content is the included snippets' text space-joined in original
input order; and a snippet exactly straddling a boundary `b` of adjacent
windows `(st, b)` and `(b, en)` appears in both. -/
theorem segment_snippet_inclusion
    (snips : List PySnippet) (st b en : ℚ) (s : PySnippet) :
    (∀ (t : PySnippet) (st' en' : ℚ),
      t ∈ segment_snippets snips st' en'
        ↔ (t ∈ snips ∧ t.start < en' ∧ t.end_ > st'))
    ∧ (∀ r : ℤ × ℚ × ℚ × ℚ,
      (process_single_segment snips r).content
        = String.intercalate " "
            ((segment_snippets snips r.2.1 r.2.2.1).map (·.text)))
    ∧ (s ∈ snips → st < b → b < en → s.start < b → b < s.end_ →
      s ∈ segment_snippets snips st b ∧ s ∈ segment_snippets snips b en) := by
  have hmem : ∀ (t : PySnippet) (st' en' : ℚ),
      t ∈ segment_snippets snips st' en'
        ↔ (t ∈ snips ∧ t.start < en' ∧ t.end_ > st') := by
    intro t st' en'
    simp [segment_snippets, List.mem_filter]
  refine ⟨hmem, fun r => rfl, ?_⟩
  intro hin hstb hben hsb hbe
  constructor
  · exact (hmem s st b).mpr ⟨hin, hsb, lt_trans hstb hbe⟩
  · exact (hmem s b en).mpr ⟨hin, lt_trans hsb hben, hbe⟩

/-- Witness for C4 at a snippet straddling the boundary 5 of windows
(0,5) and (5,10). -/
theorem segment_snippet_inclusion_witness :
    (⟨"x", 3, 7⟩ : PySnippet) ∈ ([⟨"x", 3, 7⟩] : List PySnippet)
    ∧ (0 : ℚ) < 5 ∧ (5 : ℚ) < 10 ∧ ((3 : ℚ) < 5 ∧ (5 : ℚ) < 7)
    ∧ ((⟨"x", 3, 7⟩ : PySnippet) ∈ segment_snippets [⟨"x", 3, 7⟩] 0 5
       ∧ (⟨"x", 3, 7⟩ : PySnippet) ∈ segment_snippets [⟨"x", 3, 7⟩] 5 10) :=
  ⟨by decide, by norm_num, by norm_num, ⟨by norm_num, by norm_num⟩,
   (segment_snippet_inclusion [⟨"x", 3, 7⟩] 0 5 10 ⟨"x", 3, 7⟩).2.2
     (by decide) (by norm_num) (by norm_num) (by norm_num) (by norm_num)⟩

/-- C7 counterexample: `text_splitter` can fail on non-blank content — with
`max_tokens = 0` and the 2-character content "aa", the oversized path's
splitter construction fails (`chunk_overlap 1000 > chunk_size 0`), caught
into a failure result, refuting "fails with SplitError exactly when the
content is empty or blank". -/
theorem text_splitter_nonblank_failure_counterexample :
    ("aa".data.all py_isspace) = false
    ∧ (text_splitter (fun _ _ => []) "aa" 0).success = false
    ∧ (text_splitter (fun _ _ => []) "aa" 0).error
      = some "Failed to split content: Got a larger chunk overlap (1000) than chunk size (0), should be smaller." := by
  decide

/-- C7 amended: `text_splitter` fails exactly when the content is blank
(every character Python whitespace, vacuously for empty) or when splitting
is needed but the fixed 1000-character overlap exceeds
`max_chars = max_tokens * 4` (LangChain's constructor `ValueError`, caught
into a failure result); non-blank content of length at most
`max_tokens * 4` still yields exactly one chunk equal to the original
content with `needs_splitting = false`. -/
theorem text_splitter_failure_modes
    (splitText : ℕ → String → List String) (content : String) (max_tokens : ℕ) :
    ((text_splitter splitText content max_tokens).success = false
      ↔ (content.data.all py_isspace = true
         ∨ (max_tokens * 4 < content.length ∧ max_tokens * 4 < 1000)))
    ∧ (content.data.all py_isspace = false →
      content.length ≤ max_tokens * 4 →
      (text_splitter splitText content max_tokens).success = true
      ∧ (text_splitter splitText content max_tokens).needs_splitting = false
      ∧ (text_splitter splitText content max_tokens).chunks = [content]
      ∧ (text_splitter splitText content max_tokens).total_chunks = 1
      ∧ (text_splitter splitText content max_tokens).error = none)
    ∧ (content.data.all py_isspace = true →
      (text_splitter splitText content max_tokens).error
        = some "No content provided to split")
    ∧ (content.data.all py_isspace = false →
      max_tokens * 4 < content.length → max_tokens * 4 < 1000 →
      (text_splitter splitText content max_tokens).error
        = some ("Failed to split content: Got a larger chunk overlap (1000) than chunk size ("
            ++ toString (max_tokens * 4) ++ "), should be smaller.")) := by
  cases hb : content.data.all py_isspace with
  | true =>
    have hres : text_splitter splitText content max_tokens =
        { success := false, error := some "No content provided to split",
          needs_splitting := false, chunks := [], total_chunks := 0,
          original_length := 0, estimated_tokens := 0 } := by
      unfold text_splitter
      rw [hb]
      simp
    refine ⟨by rw [hres]; simp, ?_, ?_, ?_⟩
    · intro hb' _
      exact absurd hb' (by simp)
    · intro _
      rw [hres]
    · intro hb' _ _
      exact absurd hb' (by simp)
  | false =>
    by_cases hl : content.length ≤ max_tokens * 4
    · have hres : text_splitter splitText content max_tokens =
          { success := true, error := none, needs_splitting := false,
            chunks := [content], total_chunks := 1,
            original_length := content.length,
            estimated_tokens := content.length / 4 } := by
        unfold text_splitter
        rw [hb]
        simp only [Bool.false_eq_true, if_false, if_pos hl]
      refine ⟨?_, ?_, ?_, ?_⟩
      · rw [hres]
        simp
        omega
      · intro _ _
        rw [hres]
        exact ⟨rfl, rfl, rfl, rfl, rfl⟩
      · intro h
        exact absurd h (by simp)
      · intro _ hlt _
        exact absurd hlt (by omega)
    · by_cases hov : max_tokens * 4 < 1000
      · have hres : text_splitter splitText content max_tokens =
            { success := false,
              error := some ("Failed to split content: Got a larger chunk overlap (1000) than chunk size ("
                ++ toString (max_tokens * 4) ++ "), should be smaller."),
              needs_splitting := false, chunks := [], total_chunks := 0,
              original_length := 0, estimated_tokens := 0 } := by
          unfold text_splitter
          rw [hb]
          simp only [Bool.false_eq_true, if_false, if_neg hl, if_pos hov]
        refine ⟨?_, ?_, ?_, ?_⟩
        · rw [hres]
          simp
          omega
        · intro _ hl'
          exact absurd hl' hl
        · intro h
          exact absurd h (by simp)
        · intro _ _ _
          rw [hres]
      · have hres : text_splitter splitText content max_tokens =
            { success := true, error := none, needs_splitting := true,
              chunks := splitText (max_tokens * 4) content,
              total_chunks := (splitText (max_tokens * 4) content).length,
              original_length := content.length,
              estimated_tokens := content.length / 4 } := by
          unfold text_splitter
          rw [hb]
          simp only [Bool.false_eq_true, if_false, if_neg hl, if_neg hov]
        refine ⟨?_, ?_, ?_, ?_⟩
        · rw [hres]
          simp
          omega
        · intro _ hl'
          exact absurd hl' hl
        · intro h
          exact absurd h (by simp)
        · intro _ _ hov'
          exact absurd hov' hov

/-- Witness for C7's amended claim: a 5-character non-blank content with
`max_tokens = 1` takes the caught overlap-error branch. -/
theorem text_splitter_failure_modes_witness :
    ("aaaaa".data.all py_isspace = false
      ∧ 1 * 4 < "aaaaa".length ∧ 1 * 4 < 1000)
    ∧ (text_splitter (fun _ _ => []) "aaaaa" 1).error
      = some ("Failed to split content: Got a larger chunk overlap (1000) than chunk size ("
          ++ toString (1 * 4) ++ "), should be smaller.")
    ∧ (text_splitter (fun _ _ => []) "aaaaa" 1).success = false :=
  ⟨⟨by decide, by decide, by decide⟩,
   (text_splitter_failure_modes (fun _ _ => []) "aaaaa" 1).2.2.2
     (by decide) (by decide) (by decide),
   ((text_splitter_failure_modes (fun _ _ => []) "aaaaa" 1).1).mpr
     (Or.inr ⟨by decide, by decide⟩)⟩

/-- For `1 < chunks.length`, `process_chunks_parallel` takes the parallel
branch and merges the success-filtered chunk results with the slice caps. -/
theorem process_chunks_parallel_multi
    (llm : String → Except String ChunkAnalysis)
    (chunks : List String) (segment_info : String)
    (h1 : 1 < chunks.length) :
    process_chunks_parallel llm chunks segment_info
      = { success := true
          error := none
          chunk_results := chunk_results_of llm chunks segment_info
          combined_insights :=
            ((((chunk_results_of llm chunks segment_info).filter
                (·.success)).map (·.insights)).flatten).take 10
          combined_summary :=
            String.intercalate " "
              (((chunk_results_of llm chunks segment_info).filter
                (·.success)).map (·.summary))
          notable_quotes :=
            ((((chunk_results_of llm chunks segment_info).filter
                (·.success)).map (·.quotes)).flatten).take 5
          actionable_takeaways :=
            ((((chunk_results_of llm chunks segment_info).filter
                (·.success)).map (·.takeaways)).flatten).take 7
          processing_method :=
            "parallel_processing_" ++ toString chunks.length ++ "_chunks"
          total_chunks_processed := chunks.length } := by
  have hne : chunks.isEmpty = false := by
    cases chunks with
    | nil => simp at h1
    | cons a l => rfl
  have hlen : ¬ chunks.length = 1 := by omega
  unfold process_chunks_parallel
  rw [hne]
  simp only [Bool.false_eq_true, if_false, if_neg hlen]

/-- If every LLM call succeeds, every chunk result is a success. -/
theorem chunk_results_all_success
    (llm : String → Except String ChunkAnalysis)
    (chunks : List String) (segment_info : String)
    (hok : ∀ p, ∃ a, llm p = Except.ok a) :
    (chunk_results_of llm chunks segment_info).filter (·.success)
      = chunk_results_of llm chunks segment_info := by
  apply List.filter_eq_self.mpr
  intro r hr
  obtain ⟨ic, _, hic⟩ := List.mem_map.mp hr
  obtain ⟨a, ha⟩ := hok
    (chunk_analysis_prompt ic.2 (ic.1 + 1) chunks.length segment_info)
  rw [← hic]
  simp [process_single_chunk, ha]

/-- C5: with more than one chunk and every chunk extraction succeeding, the
merge concatenates insights in chunk order and truncates to at most 10,
quotes to at most 5, takeaways to at most 7, and space-joins the per-chunk
summaries in chunk order; the caps hold unconditionally. -/
theorem merge_policy_caps
    (llm : String → Except String ChunkAnalysis)
    (chunks : List String) (segment_info : String)
    (h1 : 1 < chunks.length)
    (hok : ∀ p, ∃ a, llm p = Except.ok a) :
    (process_chunks_parallel llm chunks segment_info).combined_insights
      = (((chunk_results_of llm chunks segment_info).map (·.insights)).flatten).take 10
    ∧ (process_chunks_parallel llm chunks segment_info).notable_quotes
      = (((chunk_results_of llm chunks segment_info).map (·.quotes)).flatten).take 5
    ∧ (process_chunks_parallel llm chunks segment_info).actionable_takeaways
      = (((chunk_results_of llm chunks segment_info).map (·.takeaways)).flatten).take 7
    ∧ (process_chunks_parallel llm chunks segment_info).combined_summary
      = String.intercalate " "
          ((chunk_results_of llm chunks segment_info).map (·.summary))
    ∧ (process_chunks_parallel llm chunks segment_info).combined_insights.length ≤ 10
    ∧ (process_chunks_parallel llm chunks segment_info).notable_quotes.length ≤ 5
    ∧ (process_chunks_parallel llm chunks segment_info).actionable_takeaways.length ≤ 7 := by
  have hall := chunk_results_all_success llm chunks segment_info hok
  rw [process_chunks_parallel_multi llm chunks segment_info h1]
  dsimp only
  rw [hall]
  refine ⟨rfl, rfl, rfl, rfl, ?_, ?_, ?_⟩ <;> apply List.length_take_le

/-- Witness for C5: twelve chunks, two insights each, merged length is 10. -/
theorem merge_policy_caps_witness :
    1 < (List.replicate 12 "c").length
    ∧ (∀ p : String, ∃ a, (fun _ : String =>
        (Except.ok ⟨["i1", "i2"], "s", ["q"], ["t"], []⟩ :
          Except String ChunkAnalysis)) p = Except.ok a)
    ∧ (process_chunks_parallel
        (fun _ => Except.ok ⟨["i1", "i2"], "s", ["q"], ["t"], []⟩)
        (List.replicate 12 "c") "").combined_insights.length ≤ 10 :=
  ⟨by decide, fun _ => ⟨_, rfl⟩,
   (merge_policy_caps (fun _ => Except.ok ⟨["i1", "i2"], "s", ["q"], ["t"], []⟩)
     (List.replicate 12 "c") "" (by decide) (fun _ => ⟨_, rfl⟩)).2.2.2.2.1⟩

/-- Removing a list element on which the predicate fails leaves the filter
unchanged. -/
theorem filter_eraseIdx_of_fail {α : Type} (p : α → Bool) :
    ∀ (l : List α) (j : ℕ) (r : α), l.get? j = some r → p r = false →
      (l.eraseIdx j).filter p = l.filter p := by
  intro l
  induction l with
  | nil =>
    intro j r hr _
    cases j <;> simp at hr
  | cons x xs ih =>
    intro j r hr hp
    cases j with
    | zero =>
      have hx : x = r := by simpa using hr
      subst hx
      simp [List.eraseIdx, List.filter_cons, hp]
    | succ k =>
      have hk : xs.get? k = some r := by simpa using hr
      have hrec := ih k r hk hp
      simp only [List.eraseIdx, List.filter_cons]
      cases hpx : p x <;> simp [hrec]

/-- C8: in the multi-chunk path, a chunk result that failed contributes
nothing to the merge — the combined fields equal the merge computed with
that failed result removed — and the failure does not abort the segment:
the merged result still has `success = true`. -/
theorem failed_chunk_contributes_nothing
    (llm : String → Except String ChunkAnalysis)
    (chunks : List String) (segment_info : String) (j : ℕ) (r : ChunkResult)
    (h1 : 1 < chunks.length)
    (hr : (chunk_results_of llm chunks segment_info).get? j = some r)
    (hfail : r.success = false) :
    (process_chunks_parallel llm chunks segment_info).success = true
    ∧ (process_chunks_parallel llm chunks segment_info).combined_insights
      = (((((chunk_results_of llm chunks segment_info).eraseIdx j).filter
          (·.success)).map (·.insights)).flatten).take 10
    ∧ (process_chunks_parallel llm chunks segment_info).notable_quotes
      = (((((chunk_results_of llm chunks segment_info).eraseIdx j).filter
          (·.success)).map (·.quotes)).flatten).take 5
    ∧ (process_chunks_parallel llm chunks segment_info).actionable_takeaways
      = (((((chunk_results_of llm chunks segment_info).eraseIdx j).filter
          (·.success)).map (·.takeaways)).flatten).take 7
    ∧ (process_chunks_parallel llm chunks segment_info).combined_summary
      = String.intercalate " "
          ((((chunk_results_of llm chunks segment_info).eraseIdx j).filter
            (·.success)).map (·.summary)) := by
  have herase := filter_eraseIdx_of_fail (fun c : ChunkResult => c.success)
    (chunk_results_of llm chunks segment_info) j r hr hfail
  rw [process_chunks_parallel_multi llm chunks segment_info h1]
  dsimp only
  rw [herase]
  exact ⟨rfl, rfl, rfl, rfl, rfl⟩

set_option maxRecDepth 16384 in
/-- Witness for C8: two chunks, chunk 1 raising and chunk 2 succeeding; the
merge still succeeds and carries exactly the successful chunk's data, the
failed chunk contributing nothing. -/
theorem failed_chunk_contributes_nothing_witness :
    1 < (["a", "b"] : List String).length
    ∧ (chunk_results_of mixed_chunk_llm ["a", "b"] "").get? 0
      = some { success := false, error := some "Failed to process chunk 1: boom",
               chunk_number := 1, insights := [], summary := "", quotes := [],
               takeaways := [], themes := [] }
    ∧ (process_chunks_parallel mixed_chunk_llm ["a", "b"] "").success = true
    ∧ (process_chunks_parallel mixed_chunk_llm ["a", "b"] "").combined_insights = ["i2"]
    ∧ (process_chunks_parallel mixed_chunk_llm ["a", "b"] "").combined_summary = "s2"
    ∧ (process_chunks_parallel mixed_chunk_llm ["a", "b"] "").notable_quotes = ["q2"]
    ∧ (process_chunks_parallel mixed_chunk_llm ["a", "b"] "").actionable_takeaways = ["t2"] :=
  ⟨by decide, by decide,
   (failed_chunk_contributes_nothing mixed_chunk_llm ["a", "b"] "" 0
     { success := false, error := some "Failed to process chunk 1: boom",
       chunk_number := 1, insights := [], summary := "", quotes := [],
       takeaways := [], themes := [] }
     (by decide) (by decide) rfl).1,
   by decide, by decide, by decide, by decide⟩

/-- C10: in the single-chunk path a failed extraction is returned as
`success = true` with empty combined insights and an empty summary — the
per-chunk `success` flag is never consulted, so a single-chunk failure is
indistinguishable from a successful extraction that produced nothing. -/
theorem single_chunk_failure_success_true
    (llm : String → Except String ChunkAnalysis)
    (c : String) (segment_info : String) (e : String)
    (hfail : llm (chunk_analysis_prompt c 1 1 segment_info) = Except.error e) :
    (process_chunks_parallel llm [c] segment_info).success = true
    ∧ (process_chunks_parallel llm [c] segment_info).combined_insights = []
    ∧ (process_chunks_parallel llm [c] segment_info).combined_summary = ""
    ∧ (process_chunks_parallel llm [c] segment_info).notable_quotes = []
    ∧ (process_chunks_parallel llm [c] segment_info).actionable_takeaways = []
    ∧ (process_chunks_parallel llm [c] segment_info).chunk_results
      = [{ success := false,
           error := some ("Failed to process chunk 1: " ++ e),
           chunk_number := 1, insights := [], summary := "", quotes := [],
           takeaways := [], themes := [] }] := by
  have hres : process_chunks_parallel llm [c] segment_info
      = { success := true, error := none,
          chunk_results := [process_single_chunk llm c 1 1 segment_info]
          combined_insights := (process_single_chunk llm c 1 1 segment_info).insights
          combined_summary := (process_single_chunk llm c 1 1 segment_info).summary
          notable_quotes := (process_single_chunk llm c 1 1 segment_info).quotes
          actionable_takeaways := (process_single_chunk llm c 1 1 segment_info).takeaways
          processing_method := "single_chunk"
          total_chunks_processed := 1 } := by
    unfold process_chunks_parallel
    simp
  have hchunk : process_single_chunk llm c 1 1 segment_info
      = { success := false,
          error := some ("Failed to process chunk 1: " ++ e),
          chunk_number := 1, insights := [], summary := "", quotes := [],
          takeaways := [], themes := [] } := by
    unfold process_single_chunk
    rw [hfail]
    have hpre : ("Failed to process chunk " ++ toString (1 : ℕ) ++ ": ")
        = "Failed to process chunk 1: " := rfl
    simp [hpre]
  rw [hres, hchunk]
  exact ⟨rfl, rfl, rfl, rfl, rfl, rfl⟩

/-- Witness for C10 at a concrete failing single-chunk extraction. -/
theorem single_chunk_failure_success_true_witness :
    ((fun _ : String => (Except.error "x" : Except String ChunkAnalysis))
        (chunk_analysis_prompt "hello" 1 1 "") = Except.error "x")
    ∧ ((process_chunks_parallel (fun _ => Except.error "x") ["hello"] "").success = true
      ∧ (process_chunks_parallel (fun _ => Except.error "x") ["hello"] "").combined_insights = []
      ∧ (process_chunks_parallel (fun _ => Except.error "x") ["hello"] "").combined_summary = "") :=
  ⟨rfl,
   let h := single_chunk_failure_success_true (fun _ => Except.error "x")
     "hello" "" "x" rfl
   ⟨h.1, h.2.1, h.2.2.1⟩⟩

/-- Filling slots preserves the array length. -/
theorem fillSlots_length (w : ℕ → Option SegmentAnalysis) :
    ∀ (order : List ℕ) (acc : List (Option SegmentAnalysis)),
      (fillSlots w order acc).length = acc.length := by
  intro order
  induction order with
  | nil => intro acc; rfl
  | cons i rest ih =>
    intro acc
    rw [fillSlots, ih, List.length_set]

/-- A slot whose index never completes keeps its initial value. -/
theorem fillSlots_get_not_mem (w : ℕ → Option SegmentAnalysis) :
    ∀ (order : List ℕ) (acc : List (Option SegmentAnalysis)) (k : ℕ),
      k ∉ order → (fillSlots w order acc)[k]? = acc[k]? := by
  intro order
  induction order with
  | nil => intro acc k _; rfl
  | cons i rest ih =>
    intro acc k hk
    have hki : i ≠ k := fun h => hk (h ▸ List.mem_cons_self i rest)
    rw [fillSlots, ih _ _ (fun h => hk (List.mem_cons_of_mem i h)),
      List.getElem?_set_ne hki]

/-- A slot whose index completes exactly once holds its worker's result. -/
theorem fillSlots_get_mem (w : ℕ → Option SegmentAnalysis) :
    ∀ (order : List ℕ) (acc : List (Option SegmentAnalysis)) (k : ℕ),
      k ∈ order → order.Nodup → k < acc.length →
      (fillSlots w order acc)[k]? = some (w k) := by
  intro order
  induction order with
  | nil =>
    intro acc k hk _ _
    simp at hk
  | cons i rest ih =>
    intro acc k hk hnd hlen
    obtain ⟨hni, hndr⟩ := List.nodup_cons.mp hnd
    rcases List.mem_cons.mp hk with hik | hkr
    · subst hik
      rw [fillSlots, fillSlots_get_not_mem w rest _ k hni,
        List.getElem?_set_self hlen]
    · rw [fillSlots, ih _ _ hkr hndr (by rw [List.length_set]; exact hlen)]

/-- Filling a pre-sized all-`none` array in any completion order that is a
permutation of the indices yields the results in original index order. -/
theorem fillSlots_perm (w : ℕ → Option SegmentAnalysis) (n : ℕ)
    (order : List ℕ) (hperm : order.Perm (List.range n)) :
    fillSlots w order (List.replicate n none) = (List.range n).map w := by
  apply List.ext_getElem?
  intro k
  by_cases hk : k < n
  · have hmem : k ∈ order := hperm.mem_iff.mpr (List.mem_range.mpr hk)
    have hnd : order.Nodup := hperm.nodup_iff.mpr (List.nodup_range n)
    rw [fillSlots_get_mem w order _ k hmem hnd (by simp [hk]),
      List.getElem?_map, List.getElem?_range hk]
    rfl
  · have h1 : (fillSlots w order (List.replicate n none)).length ≤ k := by
      rw [fillSlots_length]
      simp
      omega
    have h2 : (((List.range n).map w).length) ≤ k := by
      simp
      omega
    rw [List.getElem?_eq_none h1, List.getElem?_eq_none h2]

/-- The non-null count of an option list is the length of its
`filterMap id`. -/
theorem length_filterMap_id_eq_countP (l : List (Option SegmentAnalysis)) :
    (l.filterMap id).length = l.countP (fun o => o.isSome) := by
  induction l with
  | nil => rfl
  | cons x xs ih =>
    cases x <;> simp [List.filterMap_cons, List.countP_cons, ih]

/-- C9: for any completion order of the extraction workers, the final
`MultiSegmentAnalysis` lists the non-null analyses in original segment
order (the pre-sized array is written by index, not appended in completion
order) and `total_segments` equals the count of non-null analyses actually
produced. -/
theorem pipeline_order_and_total
    (worker : ℕ → Option SegmentAnalysis) (n : ℕ) (order : List ℕ)
    (hperm : order.Perm (List.range n)) :
    (run_structured_insight_extraction_pipeline worker n order).segments
      = ((List.range n).map worker).filterMap id
    ∧ (run_structured_insight_extraction_pipeline worker n order).total_segments
      = (((List.range n).map worker).filterMap id).length
    ∧ (run_structured_insight_extraction_pipeline worker n order).total_segments
      = ((List.range n).map worker).countP (fun o => o.isSome) := by
  have hfill := fillSlots_perm worker n order hperm
  unfold run_structured_insight_extraction_pipeline
  rw [hfill]
  exact ⟨rfl, rfl, length_filterMap_id_eq_countP _⟩

/-- Witness for C9: three segments completing in the order 2, 0, 1, with
segment 1's worker failing. -/
theorem pipeline_order_and_total_witness :
    ([2, 0, 1] : List ℕ).Perm (List.range 3)
    ∧ ((run_structured_insight_extraction_pipeline
          (fun i => if i = 0 then some (⟨1, "a", "s", [], []⟩ : SegmentAnalysis)
                    else none) 3 [2, 0, 1]).segments
        = ((List.range 3).map
            (fun i => if i = 0 then some (⟨1, "a", "s", [], []⟩ : SegmentAnalysis)
                      else none)).filterMap id
      ∧ (run_structured_insight_extraction_pipeline
          (fun i => if i = 0 then some (⟨1, "a", "s", [], []⟩ : SegmentAnalysis)
                    else none) 3 [2, 0, 1]).total_segments
        = (((List.range 3).map
            (fun i => if i = 0 then some (⟨1, "a", "s", [], []⟩ : SegmentAnalysis)
                      else none)).filterMap id).length
      ∧ (run_structured_insight_extraction_pipeline
          (fun i => if i = 0 then some (⟨1, "a", "s", [], []⟩ : SegmentAnalysis)
                    else none) 3 [2, 0, 1]).total_segments
        = ((List.range 3).map
            (fun i => if i = 0 then some (⟨1, "a", "s", [], []⟩ : SegmentAnalysis)
                      else none)).countP (fun o => o.isSome)) :=
  ⟨by decide,
   pipeline_order_and_total
     (fun i => if i = 0 then some (⟨1, "a", "s", [], []⟩ : SegmentAnalysis)
               else none) 3 [2, 0, 1] (by decide)⟩
